import Mathlib

/-!
Shallow embedding of the order-tracking, session and connection logic of the
`pocketoptionapi_async` package (files `client.py` and `websocket_client.py`),
together with theorems checking the specification's claims against it.

Conventions:
* Python `dict` objects are embedded as association lists with the helpers
  `dictGet` / `dictSet` / `dictDel` below; `dictSet` models item assignment
  up to iteration order (which none of the verified properties depend on).
* Python exceptions are embedded as `Except PyErr` results.
* Python floats carried by the protocol (amounts, profits) are embedded as
  rationals; the code only compares and stores them, so no rounding behaviour
  is involved.
* External effects (the JSON decoder, the network) are parameters of the
  embedded functions, so that every theorem quantifies over their behaviour.
-/

/-- Exceptions raised by the embedded code paths. -/
inductive PyErr where
  | invalidParameterError
  | connectionError
  | orderError
  | timeoutError
  | attributeError
  | typeError
  | webSocketError
  deriving DecidableEq, Repr

/-- Decidable equality for `Except` results, so concrete runs can be checked
with `decide`. -/
instance {e a : Type} [DecidableEq e] [DecidableEq a] : DecidableEq (Except e a)
  | Except.ok x, Except.ok y =>
    if h : x = y then isTrue (h ▸ rfl)
    else isFalse (fun hc => h (Except.ok.inj hc))
  | Except.ok _, Except.error _ => isFalse (fun hc => Except.noConfusion hc)
  | Except.error _, Except.ok _ => isFalse (fun hc => Except.noConfusion hc)
  | Except.error x, Except.error y =>
    if h : x = y then isTrue (h ▸ rfl)
    else isFalse (fun hc => h (Except.error.inj hc))

/-! ## Python dict embedding (string-keyed association lists) -/

/-- `d.get(k)` / `k in d`: first binding of `k`, if any. -/
def dictGet {α : Type} (m : List (String × α)) (k : String) : Option α :=
  (m.find? (fun p => p.1 == k)).map (·.2)

/-- `del d[k]`: remove every binding of `k`. -/
def dictDel {α : Type} (m : List (String × α)) (k : String) : List (String × α) :=
  m.filter (fun p => p.1 != k)

/-- `d[k] = v`: bind `k` to `v` (modulo iteration order). -/
def dictSet {α : Type} (m : List (String × α)) (k : String) (v : α) :
    List (String × α) :=
  dictDel m k ++ [(k, v)]

/-! ## Data model (`models.py`) -/

/-- `OrderDirection` from `models.py`. -/
inductive OrderDirection where
  | call
  | put
  deriving DecidableEq, Repr

/-- `OrderStatus` from `models.py`. -/
inductive OrderStatus where
  | pending
  | active
  | closed
  | cancelled
  | win
  | lose
  deriving DecidableEq, Repr

/-- `OrderResult` from `models.py` (datetimes embedded as integer
timestamps; they are only copied around by the verified code). -/
structure OrderResult where
  order_id : String
  asset : String
  amount : ℚ
  direction : OrderDirection
  duration : Int
  status : OrderStatus
  placed_at : Int
  expires_at : Int
  profit : Option ℚ := none
  payout : Option ℚ := none
  error_message : Option String := none
  deriving DecidableEq, Repr

/-- `ConnectionStatus` from `models.py`. -/
inductive ConnectionStatus where
  | connected
  | disconnected
  | connecting
  | reconnecting
  deriving DecidableEq, Repr

/-! ## Order tracking state (`client.py`)

`_order_results` and `_active_orders` are the two dicts mapping order ids to
`OrderResult` records; `emitted` records the `_emit_event('order_closed', ...)`
calls of `_on_order_closed`. -/

/-- The order-tracking portion of `AsyncPocketOptionClient`'s state. -/
structure OrdState where
  orderResults : List (String × OrderResult)
  activeOrders : List (String × OrderResult)
  emitted : List (String × OrderResult)
  deriving DecidableEq, Repr

/-- Payload of an `order_closed` event as read by `_on_order_closed`
(`data.get('id')`, `data.get('profit', 0)`, `data.get('payout')`). -/
structure CloseEventData where
  id : Option String
  profit : Option ℚ
  payout : Option ℚ
  deriving DecidableEq, Repr

/-- The finalized `OrderResult` constructed by `_on_order_closed`
(client.py lines 759-770) from the active record and the reported data. -/
def closedResult (a : OrderResult) (profit : ℚ) (payout : Option ℚ) :
    OrderResult :=
  { order_id := a.order_id
    asset := a.asset
    amount := a.amount
    direction := a.direction
    duration := a.duration
    status := if profit > 0 then OrderStatus.win else OrderStatus.lose
    placed_at := a.placed_at
    expires_at := a.expires_at
    profit := some profit
    payout := payout
    error_message := none }

/-- `AsyncPocketOptionClient._on_order_closed` (client.py lines 747-775):
if the event carries an `id` present in `_active_orders`, build the finalized
result, store it in `_order_results`, delete the active entry and emit
`order_closed`; otherwise leave the state unchanged. -/
def onOrderClosed (d : CloseEventData) (st : OrdState) : OrdState :=
  match d.id with
  | none => st
  | some oid =>
    match dictGet st.activeOrders oid with
    | none => st
    | some a =>
      let profit := d.profit.getD 0
      let result := closedResult a profit d.payout
      { orderResults := dictSet st.orderResults oid result
        activeOrders := dictDel st.activeOrders oid
        emitted := st.emitted ++ [("order_closed", result)] }

/-- `AsyncPocketOptionClient.check_order_result` (client.py lines 431-441):
`return self._order_results.get(order_id)`. -/
def checkOrderResult (st : OrdState) (orderId : String) : Option OrderResult :=
  dictGet st.orderResults orderId

/-- `AsyncPocketOptionClient.get_active_orders` (client.py lines 443-450):
`return list(self._active_orders.values())`. -/
def getActiveOrders (st : OrdState) : List OrderResult :=
  st.activeOrders.map (·.2)

/-- The `_order_results`/`_active_orders` effect of
`AsyncPocketOptionClient.place_order` (client.py lines 330-342):
`_wait_for_order_result` polls `_order_results[request_id]`; when an entry is
present it is returned (and, being already there, stays in `_order_results`),
and if its status is `ACTIVE` it is also stored into
`_active_orders[result.order_id]`.  When no entry appears the wait times out
and the maps are unchanged. -/
def placeOrderStore (requestId : String) (st : OrdState) : OrdState :=
  match dictGet st.orderResults requestId with
  | none => st
  | some r =>
    if r.status = OrderStatus.active then
      { st with activeOrders := dictSet st.activeOrders r.order_id r }
    else st

/-- `AsyncPocketOptionClient._on_order_opened` (client.py lines 742-745):
logs and re-emits the payload; it touches neither order map. -/
def onOrderOpened (st : OrdState) : OrdState :=
  st

/-- Modelled from the spec: the delivery of the pending order result that
`_wait_for_order_result` polls `_order_results[request_id]` for (spec section
4.6, `waitForResult`); no writer for this entry exists under `src/`, so the
environment's write is taken as a primitive state transition. -/
def deliverPendingResult (requestId : String) (r : OrderResult)
    (st : OrdState) : OrdState :=
  { st with orderResults := dictSet st.orderResults requestId r }

/-- An order-lifecycle operation, as enumerated by the invariant claim:
result delivery, order placement, `order_opened` handling, `order_closed`
handling, result lookup. -/
inductive OrderOp where
  | deliver (requestId : String) (r : OrderResult)
  | place (requestId : String)
  | opened
  | closed (d : CloseEventData)
  | check (orderId : String)
  deriving Repr

/-- One order-lifecycle step (`check` is read-only). -/
def stepOrder (op : OrderOp) (st : OrdState) : OrdState :=
  match op with
  | .deliver rid r => deliverPendingResult rid r st
  | .place rid => placeOrderStore rid st
  | .opened => onOrderOpened st
  | .closed d => onOrderClosed d st
  | .check _ => st

/-- The empty order-tracking state. -/
def emptyOrdState : OrdState :=
  { orderResults := [], activeOrders := [], emitted := [] }

/-- Run a sequence of order-lifecycle operations from the empty state. -/
def runOrderOps (ops : List OrderOp) : OrdState :=
  ops.foldl (fun s op => stepOrder op s) emptyOrdState

/-- The two order maps share no order id (spec: "an `orderId` never appears
in both the active and completed maps simultaneously"). -/
def MapsDisjoint (st : OrdState) : Prop :=
  ∀ p ∈ st.orderResults, dictGet st.activeOrders p.1 = none

instance (st : OrdState) : Decidable (MapsDisjoint st) :=
  List.decidableBAll _ _

/-! ## Constructor attribute layer (`client.py` `__init__`, lines 66-97)

The constructor assigns `self._orders = {}` but never assigns
`self._order_results` or `self._active_orders`; reading a never-assigned
attribute raises `AttributeError` in Python.  `none` below means the
attribute was never assigned. -/

/-- The dict-valued attributes of `AsyncPocketOptionClient` relevant to order
tracking; `none` = attribute missing. -/
structure ClientAttrs where
  orders : Option (List (String × OrderResult))
  orderResultsAttr : Option (List (String × OrderResult))
  activeOrdersAttr : Option (List (String × OrderResult))
  deriving Repr

/-- The attribute assignments performed by `__init__` (client.py lines 66-97):
`_orders` is set to `{}`; `_order_results` and `_active_orders` are not
assigned anywhere in the constructor. -/
def initClientAttrs : ClientAttrs :=
  { orders := some []
    orderResultsAttr := none
    activeOrdersAttr := none }

/-- Reading a Python attribute: `AttributeError` if it was never assigned. -/
def getAttr {α : Type} (a : Option α) : Except PyErr α :=
  match a with
  | none => Except.error PyErr.attributeError
  | some v => Except.ok v

/-- `check_order_result` at the attribute level: reads
`self._order_results` and then does the `.get`. -/
def checkOrderResultAttr (c : ClientAttrs) (orderId : String) :
    Except PyErr (Option OrderResult) :=
  (getAttr c.orderResultsAttr).map (fun m => dictGet m orderId)

/-- `get_active_orders` at the attribute level: reads
`self._active_orders` and then takes `list(... .values())`. -/
def getActiveOrdersAttr (c : ClientAttrs) :
    Except PyErr (List OrderResult) :=
  (getAttr c.activeOrdersAttr).map (fun m => m.map (·.2))

/-! ## Order parameter validation and `place_order` (`client.py`) -/

/-- The `API_LIMITS` table read by `_validate_order_parameters`.  The
`constants` module is not under `src/`, so the numeric values are left as
parameters; every theorem below quantifies over them. -/
structure ApiLimits where
  minOrderAmount : ℚ
  maxOrderAmount : ℚ
  minDuration : Int
  maxDuration : Int
  deriving Repr

/-- `AsyncPocketOptionClient._validate_order_parameters` (client.py lines
647-661): invalid asset, out-of-range amount, or out-of-range duration each
raise `InvalidParameterError`. -/
def validateOrderParameters (limits : ApiLimits) (assets : List String)
    (asset : String) (amount : ℚ) (duration : Int) : Except PyErr Unit :=
  if asset ∉ assets then Except.error PyErr.invalidParameterError
  else if amount < limits.minOrderAmount ∨ amount > limits.maxOrderAmount then
    Except.error PyErr.invalidParameterError
  else if duration < limits.minDuration ∨ duration > limits.maxDuration then
    Except.error PyErr.invalidParameterError
  else Except.ok ()

/-- The client state touched by `place_order`: the connection flag, a
send-call counter for the underlying websocket, and the order maps. -/
structure ClientState where
  connected : Bool
  sentFrames : Nat
  ord : OrdState
  deriving Repr

/-- `AsyncPocketOptionClient.place_order` (client.py lines 302-346):
validate first, then check the connection, then send the order frame
(`_send_order`, one websocket send), then poll `_order_results[request_id]`
(`_wait_for_order_result`; a missing entry times out and is re-raised as
`OrderError`), and store an `ACTIVE` result into
`_active_orders[result.order_id]`.  The intermediate pydantic `Order`
construction only re-checks `amount > 0` and `duration >= 5` and is not
modelled separately. -/
def placeOrder (limits : ApiLimits) (assets : List String) (st : ClientState)
    (asset : String) (amount : ℚ) (duration : Int) (requestId : String) :
    ClientState × Except PyErr OrderResult :=
  match validateOrderParameters limits assets asset amount duration with
  | Except.error e => (st, Except.error e)
  | Except.ok () =>
    if st.connected = false then (st, Except.error PyErr.connectionError)
    else
      let st1 := { st with sentFrames := st.sentFrames + 1 }
      match dictGet st1.ord.orderResults requestId with
      | none => (st1, Except.error PyErr.orderError)
      | some r =>
        if r.status = OrderStatus.active then
          ({ st1 with
              ord := { st1.ord with
                activeOrders := dictSet st1.ord.activeOrders r.order_id r } },
            Except.ok r)
        else (st1, Except.ok r)
/-! ## Character-level string primitives

Python's `str.startswith`, `str.endswith`, `in`, `str.split` and
`str.replace` are embedded over the character list of the string (the
wire-protocol strings involved are ASCII, where the two views agree). -/

/-- Python `s.startswith(pre)`. -/
def strStartsWith (s pre : String) : Bool :=
  pre.data.isPrefixOf s.data

/-- Python `s.endswith(post)`. -/
def strEndsWith (s post : String) : Bool :=
  post.data.isSuffixOf s.data

/-- Python `pat in s` over character lists. -/
def listIsInfix (pat : List Char) : List Char → Bool
  | [] => pat.isEmpty
  | c :: rest => pat.isPrefixOf (c :: rest) || listIsInfix pat rest
/-- Split at the first occurrence of `sep`: `some (before, after)`, or
`none` when `sep` does not occur. -/
def splitFirst (sep : List Char) : List Char → Option (List Char × List Char)
  | [] => none
  | c :: rest =>
    if sep.isPrefixOf (c :: rest) then some ([], (c :: rest).drop sep.length)
    else
      match splitFirst sep rest with
      | none => none
      | some (pre, post) => some (c :: pre, post)

/-- The segment before the first occurrence of `sep` (the whole list when
`sep` does not occur): element `[0]` of a Python `split`. -/
def takeUntilSep (sep l : List Char) : List Char :=
  match splitFirst sep l with
  | none => l
  | some (pre, _) => pre

/-- Auxiliary loop for `replaceAll`; the fuel equals the input length,
which bounds the number of steps (each step consumes at least one
character), making the recursion structural. -/
def replaceAllAux (pat repl : List Char) : Nat → List Char → List Char
  | _, [] => []
  | 0, l => l
  | fuel + 1, c :: rest =>
    if !pat.isEmpty && pat.isPrefixOf (c :: rest) then
      repl ++ replaceAllAux pat repl fuel (List.drop (pat.length - 1) rest)
    else c :: replaceAllAux pat repl fuel rest

/-- Python `s.replace(pat, repl)` for non-empty `pat` (left-to-right,
non-overlapping). -/
def replaceAll (pat repl l : List Char) : List Char :=
  replaceAllAux pat repl l.length l

/-! ## Session descriptor (`client.py` lines 543-585 and `__init__`)

The JSON decoder (`json.loads` restricted to the auth object's keys) is a
parameter `decode`; `none` models a `json.JSONDecodeError` (which the source
catches).  `json.dumps` of a plain string is embedded by `jsonDumpsStr`. -/

/-- The fields `_parse_complete_ssid` reads off the decoded auth JSON object
(each `none` means the key is absent and the `.get` default applies). -/
structure AuthObj where
  session : Option String
  isDemo : Option Int
  uid : Option Int
  platform : Option Int
  isFastHistory : Option Bool
  deriving DecidableEq, Repr

/-- The literal prefix `42["auth",` tested by the source. -/
def authPrefix : String := "42[\x22auth\x22,"

/-- The session-identity fields of `AsyncPocketOptionClient`.
`sessionId = none` and `completeSsid = none` model the respective attribute
being missing or `None` (the source guards `_complete_ssid` with `hasattr`
and truthiness, so the two cases behave identically). -/
structure SessionState where
  rawSsid : String
  sessionId : Option String
  isDemo : Bool
  uid : Int
  platform : Int
  isFastHistory : Bool
  completeSsid : Option String
  deriving Repr

/-- `json.dumps` escaping for the characters occurring in session tokens
(backslash and double quote; control characters do not occur). -/
def jsonEscapeString (s : String) : String :=
  s.foldl
    (fun acc c =>
      if c = '\x22' then acc ++ "\\\x22"
      else if c = '\\' then acc ++ "\\\\"
      else acc.push c)
    ""

/-- `json.dumps` of a Python string. -/
def jsonDumpsStr (s : String) : String :=
  "\x22" ++ jsonEscapeString s ++ "\x22"

/-- `AsyncPocketOptionClient._parse_complete_ssid` (client.py lines 562-585):
strip the `42["auth",` / `]` delimiters, decode the JSON object and extract
the components (with the source's defaults), remembering the complete string;
on a decode error fall back to treating the input as a raw session id.  When
the prefix matches but the suffix does not, the body's `if` is skipped and no
attribute is assigned. -/
def parseCompleteSsid (decode : String → Option AuthObj) (ssid : String)
    (st : SessionState) : SessionState :=
  if strStartsWith ssid authPrefix && strEndsWith ssid "]" then
    match decode ((ssid.drop 10).dropRight 1) with
    | some o =>
      { st with
          sessionId := some (o.session.getD "")
          isDemo := o.isDemo.getD 1 != 0
          uid := o.uid.getD 0
          platform := o.platform.getD 1
          isFastHistory := o.isFastHistory.getD true
          completeSsid := some ssid }
    | none => { st with sessionId := some ssid, completeSsid := none }
  else st

/-- The session-identity part of `AsyncPocketOptionClient.__init__`
(client.py lines 49-64): store the constructor arguments, then either parse a
complete `42["auth",...]` string or treat the input as a raw session id. -/
def clientInitSession (decode : String → Option AuthObj) (ssid : String)
    (isDemo : Bool) (uid platform : Int) (isFastHistory : Bool) :
    SessionState :=
  let st0 : SessionState :=
    { rawSsid := ssid
      sessionId := none
      isDemo := isDemo
      uid := uid
      platform := platform
      isFastHistory := isFastHistory
      completeSsid := none }
  if strStartsWith ssid authPrefix then parseCompleteSsid decode ssid st0
  else { st0 with sessionId := some ssid, completeSsid := none }

/-- `AsyncPocketOptionClient._format_session_message` (client.py lines
543-560): replay a parsed complete SSID verbatim; otherwise `auth_data` is
the raw SSID *string*, so `auth_data["isFastHistory"] = True` raises
`TypeError` whenever `is_fast_history` is set, and with it unset the string
itself is JSON-dumped into the auth frame (no session/isDemo/uid/platform
keys are synthesized). -/
def formatSessionMessage (st : SessionState) : Except PyErr String :=
  match st.completeSsid with
  | some s => Except.ok s
  | none =>
    if st.isFastHistory then Except.error PyErr.typeError
    else Except.ok (authPrefix ++ jsonDumpsStr st.rawSsid ++ "]")

/-! ## WebSocket connection (`websocket_client.py`) -/

/-- Python's `pat in s`. -/
def strContains (s pat : String) : Bool :=
  listIsInfix pat.data s.data

/-- `AsyncWebSocketClient._extract_region_from_url` (websocket_client.py
lines 354-366): take the host label before the first `.` after `//`, strip an
`api-` marker and upper-case, recognize `demo`, else `UNKNOWN`; any indexing
failure (no `//`) is caught and yields `UNKNOWN`. -/
def extractRegionFromUrl (url : String) : String :=
  match splitFirst "//".data url.data with
  | none => "UNKNOWN"
  | some (_, afterSlashes) =>
    let parts : String := ⟨takeUntilSep ".".data (takeUntilSep "//".data afterSlashes)⟩
    if strContains parts "api-" then
      ⟨(replaceAll "api-".data [] parts.data).map Char.toUpper⟩
    else if strContains parts "demo" then "DEMO"
    else "UNKNOWN"

/-- The `ConnectionInfo` fields recorded on a successful connect (timestamps
are not modelled; `reconnect_attempts` is orthogonal to the claims). -/
structure ConnInfo where
  url : String
  region : String
  status : ConnectionStatus
  deriving DecidableEq, Repr

/-- `AsyncWebSocketClient.connect` (websocket_client.py lines 36-100): try
each URL in order — `ok` abstracts the transport dial, TLS setup and
handshake sends, any failure being caught so the loop continues — and on the
first success record a `ConnectionInfo` with that URL and its extracted
region and return; if every candidate fails, raise
`ConnectionError("Failed to connect to any WebSocket endpoint")`. -/
def wsConnect (ok : String → Bool) (urls : List String) :
    Except PyErr ConnInfo :=
  match urls with
  | [] => Except.error PyErr.connectionError
  | u :: rest =>
    if ok u then
      Except.ok { url := u, region := extractRegionFromUrl u,
                  status := ConnectionStatus.connected }
    else wsConnect ok rest

/-- `AsyncPocketOptionClient.connect` over
`_start_regular_connection` (client.py lines 101-194): an empty URL list
raises, a websocket-level failure propagates, post-connect authentication
failure (`authOk`) raises — and `connect`'s blanket `except` re-raises every
one of these as `ConnectionError`; only the fully successful path returns
`True`.  No path returns `False`, because `wsConnect` raises instead of
returning a falsy value. -/
def clientConnect (ok : String → Bool) (authOk : Except PyErr Unit)
    (urls : List String) : Except PyErr Bool :=
  match urls with
  | [] => Except.error PyErr.connectionError
  | _ =>
    match wsConnect ok urls with
    | Except.error _ => Except.error PyErr.connectionError
    | Except.ok _ =>
      match authOk with
      | Except.error _ => Except.error PyErr.connectionError
      | Except.ok () => Except.ok true

/-! ## Reconnection monitor (`client.py` lines 223-247) -/

/-- The connection-statistics and event state touched by one iteration of
`_reconnection_monitor`. -/
structure ReconState where
  totalReconnects : Nat
  emittedEvents : List String
  deriving DecidableEq, Repr

/-- One iteration of `AsyncPocketOptionClient._reconnection_monitor`
(client.py lines 223-247): when disconnected with auto-reconnect enabled,
`_connection_stats['total_reconnects']` is incremented *before* the
reconnection attempt; the `reconnected` event is emitted only when
`_start_regular_connection` returns `True` (`attempt = some true`);
`some false` and `none` (an exception) just wait for the next iteration. -/
def reconnectionMonitorIteration (connected autoReconnect : Bool)
    (attempt : Option Bool) (st : ReconState) : ReconState :=
  if !connected && autoReconnect then
    let st1 := { st with totalReconnects := st.totalReconnects + 1 }
    match attempt with
    | some true => { st1 with emittedEvents := st1.emittedEvents ++ ["reconnected"] }
    | _ => st1
  else st

/-! ## Inbound frame processing (`websocket_client.py` lines 148-313) -/

/-- An observable output of `_process_message`: a frame sent back on the
websocket, an event published to the handlers, or the catch-all
`unknown_event` publication (whose payload wraps the type and data). -/
inductive WsAction (π : Type) where
  | send (frame : String)
  | publish (event : String) (payload : Option π)
  | publishUnknown (eventType : String) (payload : Option π)
  deriving DecidableEq, Repr

/-- Python `s.split(sep, 1)[1]` (everything after the first separator);
`none` models the `IndexError` when the separator does not occur. -/
def splitFirstRest (s sep : String) : Option String :=
  (splitFirst sep.data s.data).map (fun pr => ⟨pr.2⟩)

/-- `AsyncWebSocketClient._handle_json_message` (websocket_client.py lines
277-313): map the server event name to the published event, with a catch-all
`unknown_event`. -/
def handleJsonMessage {π : Type} (et : String) (ed : Option π) :
    List (WsAction π) :=
  if et = "successauth" then [WsAction.publish "authenticated" ed]
  else if et = "successupdateBalance" then [WsAction.publish "balance_updated" ed]
  else if et = "successopenOrder" then [WsAction.publish "order_opened" ed]
  else if et = "successcloseOrder" then [WsAction.publish "order_closed" ed]
  else if et = "updateStream" then [WsAction.publish "stream_update" ed]
  else if et = "loadHistoryPeriod" then [WsAction.publish "candles_received" ed]
  else if et = "updateHistoryNew" then [WsAction.publish "history_update" ed]
  else [WsAction.publishUnknown et ed]

/-- `AsyncWebSocketClient._process_message` (websocket_client.py lines
243-275), as the list of outputs it produces for one inbound frame.  The
JSON-array decode of `451-[...]` frames is the parameter `parse451`
(returning the event name and optional payload; `none` covers a decode error
or an empty array, both of which produce no output). -/
def processMessage {π : Type} (parse451 : String → Option (String × Option π))
    (msg : String) : List (WsAction π) :=
  if strStartsWith msg "0" && strContains msg "sid" then [WsAction.send "40"]
  else if msg == "2" then [WsAction.send "3"]
  else if strStartsWith msg "40" && strContains msg "sid" then
    [WsAction.publish "connected" none]
  else if strStartsWith msg "451-[" then
    match splitFirstRest msg "-" with
    | none => []
    | some jsonPart =>
      match parse451 jsonPart with
      | some (et, ed) => handleJsonMessage et ed
      | none => []
  else if strStartsWith msg "42" && strContains msg "NotAuthorized" then
    [WsAction.publish "auth_error" none]
  else []

/-- `AsyncWebSocketClient.receive_messages` (websocket_client.py lines
148-171) over a batch of inbound frames: each frame is fully processed, in
order, before the next one is touched. -/
def processBatch {π : Type} (parse451 : String → Option (String × Option π))
    (msgs : List String) : List (WsAction π) :=
  msgs.flatMap (processMessage parse451)

/-! # Helper lemmas -/

theorem dictGet_append {α : Type} (m₁ m₂ : List (String × α)) (k : String) :
    dictGet (m₁ ++ m₂) k = ((dictGet m₁ k).orElse (fun _ => dictGet m₂ k)) := by
  unfold dictGet
  rw [List.find?_append]
  cases m₁.find? (fun p => p.1 == k) <;> simp [Option.orElse]

theorem dictGet_dictDel_self {α : Type} (m : List (String × α)) (k : String) :
    dictGet (dictDel m k) k = none := by
  unfold dictGet dictDel
  induction m with
  | nil => rfl
  | cons p t ih =>
    by_cases h : p.1 = k
    · simp [h, List.filter, ih]
    · simp only [List.filter]
      have hb : (p.1 != k) = true := by simp [bne, h]
      rw [hb]
      simp only [List.find?]
      have hb2 : (p.1 == k) = false := by simp [h]
      rw [hb2]
      exact ih

theorem dictGet_dictDel_ne {α : Type} (m : List (String × α)) (k k' : String)
    (h : k' ≠ k) : dictGet (dictDel m k) k' = dictGet m k' := by
  unfold dictGet dictDel
  induction m with
  | nil => rfl
  | cons p t ih =>
    by_cases hp : p.1 = k
    · have hb : (p.1 != k) = true → False := by simp [bne, hp]
      simp only [List.filter]
      have : (p.1 != k) = false := by simp [bne, hp]
      rw [this]
      have hne : (p.1 == k') = false := by
        simp only [beq_eq_false_iff_ne, ne_eq]
        intro hc; exact h (hc ▸ hp ▸ rfl)
      simp only [List.find?]
      rw [hne]
      exact ih
    · simp only [List.filter]
      have : (p.1 != k) = true := by simp [bne, hp]
      rw [this]
      simp only [List.find?]
      cases hc : (p.1 == k') with
      | true => rfl
      | false => exact ih

theorem dictGet_dictSet_self {α : Type} (m : List (String × α)) (k : String)
    (v : α) : dictGet (dictSet m k v) k = some v := by
  unfold dictSet
  rw [dictGet_append, dictGet_dictDel_self]
  simp [dictGet, Option.orElse]

theorem dictGet_dictSet_ne {α : Type} (m : List (String × α)) (k k' : String)
    (v : α) (h : k' ≠ k) : dictGet (dictSet m k v) k' = dictGet m k' := by
  unfold dictSet
  rw [dictGet_append, dictGet_dictDel_ne m k k' h]
  cases hg : dictGet m k' with
  | some w => rfl
  | none =>
    simp only [Option.orElse, Option.none_orElse]
    unfold dictGet
    simp only [List.find?]
    have : (k == k') = false := by
      simp only [beq_eq_false_iff_ne, ne_eq]
      intro hc; exact h hc.symm
    rw [this]
    rfl

theorem dictGet_eq_some_mem_values {α : Type} (m : List (String × α))
    (k : String) (v : α) (h : dictGet m k = some v) : v ∈ m.map (·.2) := by
  unfold dictGet at h
  cases hf : m.find? (fun p => p.1 == k) with
  | none => rw [hf] at h; exact absurd h (by simp)
  | some p =>
    rw [hf] at h
    have hp : p ∈ m := List.mem_of_find?_eq_some hf
    have : p.2 = v := by simpa using h
    exact this ▸ List.mem_map.mpr ⟨p, hp, rfl⟩

theorem onOrderClosed_eq (d : CloseEventData) (st : OrdState) (oid : String)
    (a : OrderResult) (hid : d.id = some oid)
    (hact : dictGet st.activeOrders oid = some a) :
    onOrderClosed d st =
      { orderResults :=
          dictSet st.orderResults oid (closedResult a (d.profit.getD 0) d.payout)
        activeOrders := dictDel st.activeOrders oid
        emitted := st.emitted ++
          [("order_closed", closedResult a (d.profit.getD 0) d.payout)] } := by
  unfold onOrderClosed
  rw [hid]
  simp only [hact]

/-! # Claim theorems -/

/-- C1: on an `order_closed` event whose `orderId` is in the active-orders
map, the client computes the terminal status from the profit sign
(win iff profit > 0), records the reported profit in the finalized
`OrderResult`, stores it in the completed-results map, removes the order from
the active-orders map (so it no longer appears in `get_active_orders`), and
emits an `order_closed` event with the finalized result. -/
theorem order_closed_finalizes_and_moves
    (st : OrdState) (d : CloseEventData) (oid : String) (a : OrderResult)
    (hid : d.id = some oid)
    (hact : dictGet st.activeOrders oid = some a)
    (hkeys : ∀ p ∈ st.activeOrders, (p.2).order_id = p.1) :
    checkOrderResult (onOrderClosed d st) oid
        = some (closedResult a (d.profit.getD 0) d.payout) ∧
    (closedResult a (d.profit.getD 0) d.payout).status
        = (if d.profit.getD 0 > 0 then OrderStatus.win else OrderStatus.lose) ∧
    (closedResult a (d.profit.getD 0) d.payout).profit
        = some (d.profit.getD 0) ∧
    dictGet (onOrderClosed d st).activeOrders oid = none ∧
    (∀ x ∈ getActiveOrders (onOrderClosed d st), x.order_id ≠ oid) ∧
    (onOrderClosed d st).emitted = st.emitted ++
        [("order_closed", closedResult a (d.profit.getD 0) d.payout)] := by
  have hred := onOrderClosed_eq d st oid a hid hact
  refine ⟨?_, rfl, rfl, ?_, ?_, ?_⟩
  · unfold checkOrderResult
    rw [hred]
    exact dictGet_dictSet_self _ _ _
  · rw [hred]
    exact dictGet_dictDel_self _ _
  · intro x hx
    unfold getActiveOrders at hx
    rw [hred] at hx
    obtain ⟨p, hp, hpx⟩ := List.mem_map.mp hx
    have hmf := List.mem_filter.mp hp
    have hne : p.1 ≠ oid := by simpa using hmf.2
    have hkey := hkeys p hmf.1
    rw [← hpx, hkey]
    exact hne
  · rw [hred]

/-- C1 witness: a concrete active order `"X"` closed with profit `5`. -/
theorem order_closed_finalizes_and_moves_witness :
    checkOrderResult
        (onOrderClosed ⟨some "X", some 5, none⟩
          ⟨[], [("X", ⟨"X", "EURUSD_otc", 1, OrderDirection.call, 60,
                        OrderStatus.active, 0, 60, none, none, none⟩)], []⟩)
        "X"
      = some (closedResult
          ⟨"X", "EURUSD_otc", 1, OrderDirection.call, 60,
            OrderStatus.active, 0, 60, none, none, none⟩ 5 none) ∧
    (closedResult
        ⟨"X", "EURUSD_otc", 1, OrderDirection.call, 60,
          OrderStatus.active, 0, 60, none, none, none⟩ 5 none).status
      = (if (5 : ℚ) > 0 then OrderStatus.win else OrderStatus.lose) ∧
    (closedResult
        ⟨"X", "EURUSD_otc", 1, OrderDirection.call, 60,
          OrderStatus.active, 0, 60, none, none, none⟩ 5 none).profit
      = some 5 ∧
    dictGet
        (onOrderClosed ⟨some "X", some 5, none⟩
          ⟨[], [("X", ⟨"X", "EURUSD_otc", 1, OrderDirection.call, 60,
                        OrderStatus.active, 0, 60, none, none, none⟩)], []⟩).activeOrders
        "X" = none ∧
    (∀ x ∈ getActiveOrders
        (onOrderClosed ⟨some "X", some 5, none⟩
          ⟨[], [("X", ⟨"X", "EURUSD_otc", 1, OrderDirection.call, 60,
                        OrderStatus.active, 0, 60, none, none, none⟩)], []⟩),
      x.order_id ≠ "X") ∧
    (onOrderClosed ⟨some "X", some 5, none⟩
        ⟨[], [("X", ⟨"X", "EURUSD_otc", 1, OrderDirection.call, 60,
                      OrderStatus.active, 0, 60, none, none, none⟩)], []⟩).emitted
      = [] ++ [("order_closed",
          closedResult
            ⟨"X", "EURUSD_otc", 1, OrderDirection.call, 60,
              OrderStatus.active, 0, 60, none, none, none⟩ 5 none)] :=
  order_closed_finalizes_and_moves
    ⟨[], [("X", ⟨"X", "EURUSD_otc", 1, OrderDirection.call, 60,
                  OrderStatus.active, 0, 60, none, none, none⟩)], []⟩
    ⟨some "X", some 5, none⟩ "X"
    ⟨"X", "EURUSD_otc", 1, OrderDirection.call, 60,
      OrderStatus.active, 0, 60, none, none, none⟩
    rfl (by decide) (by decide)

/-- C2 counterexample: an order `"X"` that is present in the active-orders
map (and only there, i.e. it has been seen) is reported as `none` by
`check_order_result`, because the source only reads `_order_results` and
never consults `_active_orders`. -/
theorem check_order_result_ignores_active_counterexample :
    checkOrderResult
        ⟨[], [("X", ⟨"X", "EURUSD_otc", 1, OrderDirection.call, 60,
                      OrderStatus.active, 0, 60, none, none, none⟩)], []⟩
        "X" = none ∧
    dictGet
        (⟨[], [("X", ⟨"X", "EURUSD_otc", 1, OrderDirection.call, 60,
                       OrderStatus.active, 0, 60, none, none, none⟩)], []⟩ :
          OrdState).activeOrders
        "X"
      = some ⟨"X", "EURUSD_otc", 1, OrderDirection.call, 60,
              OrderStatus.active, 0, 60, none, none, none⟩ := by
  exact ⟨rfl, by decide⟩

/-- C2 (amended): `check_order_result` reads only the completed-results map;
an order id present only in the active-orders map (and hence visible in
`get_active_orders`) is answered with `none`. -/
theorem check_order_result_reads_completed_only
    (st : OrdState) (oid : String) (r : OrderResult)
    (hcomp : dictGet st.orderResults oid = none)
    (hact : dictGet st.activeOrders oid = some r) :
    checkOrderResult st oid = none ∧ r ∈ getActiveOrders st := by
  constructor
  · unfold checkOrderResult
    exact hcomp
  · exact dictGet_eq_some_mem_values _ _ _ hact

/-- C2 witness for the amended theorem, at the same concrete state. -/
theorem check_order_result_reads_completed_only_witness :
    checkOrderResult
        ⟨[], [("X", ⟨"X", "EURUSD_otc", 1, OrderDirection.call, 60,
                      OrderStatus.active, 0, 60, none, none, none⟩)], []⟩
        "X" = none ∧
    (⟨"X", "EURUSD_otc", 1, OrderDirection.call, 60,
       OrderStatus.active, 0, 60, none, none, none⟩ : OrderResult)
      ∈ getActiveOrders
          ⟨[], [("X", ⟨"X", "EURUSD_otc", 1, OrderDirection.call, 60,
                        OrderStatus.active, 0, 60, none, none, none⟩)], []⟩ :=
  check_order_result_reads_completed_only
    ⟨[], [("X", ⟨"X", "EURUSD_otc", 1, OrderDirection.call, 60,
                  OrderStatus.active, 0, 60, none, none, none⟩)], []⟩
    "X"
    ⟨"X", "EURUSD_otc", 1, OrderDirection.call, 60,
      OrderStatus.active, 0, 60, none, none, none⟩
    rfl (by decide)

/-- C3: on a freshly constructed client, `check_order_result` and
`get_active_orders` raise `AttributeError` instead of returning
absent/empty, because `__init__` initializes `_orders` but neither
`_order_results` nor `_active_orders`. -/
theorem fresh_client_order_lookups_raise_attribute_error :
    ∀ orderId : String,
      checkOrderResultAttr initClientAttrs orderId
          = Except.error PyErr.attributeError ∧
      getActiveOrdersAttr initClientAttrs
          = Except.error PyErr.attributeError ∧
      initClientAttrs.orders = some [] :=
  fun _ => ⟨rfl, rfl, rfl⟩

/-- C4 counterexample: delivering the pending result for request `"X"` (an
`ACTIVE` result whose `order_id` is the same `"X"`) and then running
`place_order`'s store step leaves `"X"` in the completed-results map (where
`_wait_for_order_result` found it and `place_order` never removes it) while
also inserting it into the active-orders map — the orderId is in both maps
simultaneously. -/
theorem order_maps_disjointness_counterexample :
    ¬ MapsDisjoint
        (runOrderOps
          [OrderOp.deliver "X"
              ⟨"X", "EURUSD_otc", 1, OrderDirection.call, 60,
                OrderStatus.active, 0, 60, none, none, none⟩,
            OrderOp.place "X"]) ∧
    dictGet
        (runOrderOps
          [OrderOp.deliver "X"
              ⟨"X", "EURUSD_otc", 1, OrderDirection.call, 60,
                OrderStatus.active, 0, 60, none, none, none⟩,
            OrderOp.place "X"]).orderResults "X"
      = some ⟨"X", "EURUSD_otc", 1, OrderDirection.call, 60,
              OrderStatus.active, 0, 60, none, none, none⟩ ∧
    dictGet
        (runOrderOps
          [OrderOp.deliver "X"
              ⟨"X", "EURUSD_otc", 1, OrderDirection.call, 60,
                OrderStatus.active, 0, 60, none, none, none⟩,
            OrderOp.place "X"]).activeOrders "X"
      = some ⟨"X", "EURUSD_otc", 1, OrderDirection.call, 60,
              OrderStatus.active, 0, 60, none, none, none⟩ := by
  refine ⟨?_, by decide, by decide⟩
  decide

/-- C4 (amended): `_on_order_closed` preserves disjointness of the two maps
(it moves the record atomically), but `place_order` does not — it leaves the
fetched result in the completed-results map while inserting it into the
active-orders map, so the global invariant fails (see the counterexample). -/
theorem order_closed_preserves_disjointness (d : CloseEventData)
    (st : OrdState) (h : MapsDisjoint st) :
    MapsDisjoint (onOrderClosed d st) := by
  cases hid : d.id with
  | none =>
    unfold onOrderClosed
    rw [hid]
    exact h
  | some oid =>
    cases hact : dictGet st.activeOrders oid with
    | none =>
      unfold onOrderClosed
      rw [hid]
      simpa only [hact] using h
    | some a =>
      rw [onOrderClosed_eq d st oid a hid hact]
      intro p hp
      simp only [dictSet, List.mem_append] at hp
      rcases hp with hp | hp
      · have hmf := List.mem_filter.mp hp
        have hne : p.1 ≠ oid := by simpa using hmf.2
        rw [dictGet_dictDel_ne st.activeOrders oid p.1 hne]
        exact h p hmf.1
      · simp only [List.mem_singleton] at hp
        subst hp
        exact dictGet_dictDel_self st.activeOrders oid

/-- C4 witness: a state with disjoint maps stays disjoint across an
`order_closed` event. -/
theorem order_closed_preserves_disjointness_witness :
    MapsDisjoint
      (onOrderClosed ⟨some "X", some 5, none⟩
        ⟨[("Y", ⟨"Y", "EURUSD_otc", 1, OrderDirection.put, 60,
                  OrderStatus.lose, 0, 60, some (-1), none, none⟩)],
          [("X", ⟨"X", "EURUSD_otc", 1, OrderDirection.call, 60,
                   OrderStatus.active, 0, 60, none, none, none⟩)], []⟩) :=
  order_closed_preserves_disjointness ⟨some "X", some 5, none⟩
    ⟨[("Y", ⟨"Y", "EURUSD_otc", 1, OrderDirection.put, 60,
              OrderStatus.lose, 0, 60, some (-1), none, none⟩)],
      [("X", ⟨"X", "EURUSD_otc", 1, OrderDirection.call, 60,
               OrderStatus.active, 0, 60, none, none, none⟩)], []⟩
    (by decide)

/-- C5: when the order parameters fail validation (asset unknown, amount
outside the configured bounds — in particular below the minimum — or
duration outside the bounds), `place_order` fails with
`InvalidParameterError` synchronously and the client state is unchanged: the
send-call counter stays where it was (zero frames sent by the call) and no
connection state changes. -/
theorem place_order_invalid_params_sends_nothing
    (limits : ApiLimits) (assets : List String) (st : ClientState)
    (asset : String) (amount : ℚ) (duration : Int) (requestId : String)
    (hv : validateOrderParameters limits assets asset amount duration
            ≠ Except.ok ()) :
    placeOrder limits assets st asset amount duration requestId
        = (st, Except.error PyErr.invalidParameterError) ∧
    (placeOrder limits assets st asset amount duration requestId).1.sentFrames
        = st.sentFrames := by
  have hform :
      validateOrderParameters limits assets asset amount duration
        = Except.error PyErr.invalidParameterError := by
    unfold validateOrderParameters at hv ⊢
    by_cases h1 : asset ∉ assets
    · simp [h1]
    · by_cases h2 : amount < limits.minOrderAmount ∨ amount > limits.maxOrderAmount
      · simp [h1, h2]
      · by_cases h3 : duration < limits.minDuration ∨ duration > limits.maxDuration
        · simp [h1, h2, h3]
        · exact absurd (by simp [h1, h2, h3]) hv
  have hred :
      placeOrder limits assets st asset amount duration requestId
        = (st, Except.error PyErr.invalidParameterError) := by
    unfold placeOrder
    rw [hform]
  exact ⟨hred, by rw [hred]⟩

/-- C5 witness: amount `0.5` below a configured minimum of `1` is rejected
with the send counter still at zero. -/
theorem place_order_invalid_params_sends_nothing_witness :
    placeOrder ⟨1, 50000, 5, 43200⟩ ["EURUSD_otc"]
        ⟨true, 0, ⟨[], [], []⟩⟩ "EURUSD_otc" (1/2) 60 "req-1"
      = (⟨true, 0, ⟨[], [], []⟩⟩,
          Except.error PyErr.invalidParameterError) ∧
    (placeOrder ⟨1, 50000, 5, 43200⟩ ["EURUSD_otc"]
        ⟨true, 0, ⟨[], [], []⟩⟩ "EURUSD_otc" (1/2) 60 "req-1").1.sentFrames
      = 0 :=
  place_order_invalid_params_sends_nothing ⟨1, 50000, 5, 43200⟩
    ["EURUSD_otc"] ⟨true, 0, ⟨[], [], []⟩⟩ "EURUSD_otc" (1/2) 60 "req-1"
    (by norm_num [validateOrderParameters]; intro h; exact Except.noConfusion h)

/-- C6 counterexample: a client constructed from discrete fields (a raw
session id with the default `is_fast_history = True`) cannot re-encode its
descriptor at all — `_format_session_message` raises `TypeError` on
`auth_data["isFastHistory"] = True` because `auth_data` is the raw SSID
string — so the round-trip claimed for both construction modes fails. -/
theorem session_roundtrip_counterexample :
    formatSessionMessage
        (clientInitSession (fun _ => none) "rawsession123" true 0 1 true)
      = Except.error PyErr.typeError := by
  decide

/-- C6 (amended): the round-trip law holds for the parsed-from-string mode
only: when the client is constructed from a complete `42["auth",...]` string
that decodes successfully, `_format_session_message` replays that exact
string (byte-identical), and re-parsing it yields the same
`(sessionToken, isDemo, userId, platform, fastHistory)` tuple regardless of
the discrete constructor arguments; the synthesized-from-fields mode raises
`TypeError` instead (see the counterexample). -/
theorem session_replay_roundtrip_from_complete_ssid
    (decode : String → Option AuthObj) (ssid : String) (o : AuthObj)
    (d1 d2 : Bool) (u1 u2 p1 p2 : Int) (f1 f2 : Bool)
    (hpre : strStartsWith ssid authPrefix = true)
    (hsuf : strEndsWith ssid "]" = true)
    (hdec : decode ((ssid.drop 10).dropRight 1) = some o) :
    formatSessionMessage (clientInitSession decode ssid d1 u1 p1 f1)
        = Except.ok ssid ∧
    (clientInitSession decode ssid d2 u2 p2 f2).sessionId
        = (clientInitSession decode ssid d1 u1 p1 f1).sessionId ∧
    (clientInitSession decode ssid d2 u2 p2 f2).isDemo
        = (clientInitSession decode ssid d1 u1 p1 f1).isDemo ∧
    (clientInitSession decode ssid d2 u2 p2 f2).uid
        = (clientInitSession decode ssid d1 u1 p1 f1).uid ∧
    (clientInitSession decode ssid d2 u2 p2 f2).platform
        = (clientInitSession decode ssid d1 u1 p1 f1).platform ∧
    (clientInitSession decode ssid d2 u2 p2 f2).isFastHistory
        = (clientInitSession decode ssid d1 u1 p1 f1).isFastHistory := by
  have hinit : ∀ (d : Bool) (u p : Int) (f : Bool),
      clientInitSession decode ssid d u p f =
        { rawSsid := ssid
          sessionId := some (o.session.getD "")
          isDemo := o.isDemo.getD 1 != 0
          uid := o.uid.getD 0
          platform := o.platform.getD 1
          isFastHistory := o.isFastHistory.getD true
          completeSsid := some ssid } := by
    intro d u p f
    unfold clientInitSession parseCompleteSsid
    rw [hpre]
    simp only [hsuf, Bool.and_true, if_true, hdec]
  rw [hinit d1 u1 p1 f1, hinit d2 u2 p2 f2]
  exact ⟨rfl, rfl, rfl, rfl, rfl, rfl⟩

/-- C6 witness: a concrete complete SSID round-trips byte-identically. -/
theorem session_replay_roundtrip_from_complete_ssid_witness :
    formatSessionMessage
        (clientInitSession
          (fun s =>
            if s = "\x7b\x22session\x22:\x22abc\x22,\x22isDemo\x22:1,\x22uid\x22:72645361,\x22platform\x22:1,\x22isFastHistory\x22:true\x7d"
            then some ⟨some "abc", some 1, some 72645361, some 1, some true⟩
            else none)
          "42[\x22auth\x22,\x7b\x22session\x22:\x22abc\x22,\x22isDemo\x22:1,\x22uid\x22:72645361,\x22platform\x22:1,\x22isFastHistory\x22:true\x7d]"
          true 0 1 true)
      = Except.ok
          "42[\x22auth\x22,\x7b\x22session\x22:\x22abc\x22,\x22isDemo\x22:1,\x22uid\x22:72645361,\x22platform\x22:1,\x22isFastHistory\x22:true\x7d]" ∧
    (clientInitSession
        (fun s =>
          if s = "\x7b\x22session\x22:\x22abc\x22,\x22isDemo\x22:1,\x22uid\x22:72645361,\x22platform\x22:1,\x22isFastHistory\x22:true\x7d"
          then some ⟨some "abc", some 1, some 72645361, some 1, some true⟩
          else none)
        "42[\x22auth\x22,\x7b\x22session\x22:\x22abc\x22,\x22isDemo\x22:1,\x22uid\x22:72645361,\x22platform\x22:1,\x22isFastHistory\x22:true\x7d]"
        false 7 3 false).sessionId
      = (clientInitSession
          (fun s =>
            if s = "\x7b\x22session\x22:\x22abc\x22,\x22isDemo\x22:1,\x22uid\x22:72645361,\x22platform\x22:1,\x22isFastHistory\x22:true\x7d"
            then some ⟨some "abc", some 1, some 72645361, some 1, some true⟩
            else none)
          "42[\x22auth\x22,\x7b\x22session\x22:\x22abc\x22,\x22isDemo\x22:1,\x22uid\x22:72645361,\x22platform\x22:1,\x22isFastHistory\x22:true\x7d]"
          true 0 1 true).sessionId := by
  have h := session_replay_roundtrip_from_complete_ssid
    (fun s =>
      if s = "\x7b\x22session\x22:\x22abc\x22,\x22isDemo\x22:1,\x22uid\x22:72645361,\x22platform\x22:1,\x22isFastHistory\x22:true\x7d"
      then some ⟨some "abc", some 1, some 72645361, some 1, some true⟩
      else none)
    "42[\x22auth\x22,\x7b\x22session\x22:\x22abc\x22,\x22isDemo\x22:1,\x22uid\x22:72645361,\x22platform\x22:1,\x22isFastHistory\x22:true\x7d]"
    ⟨some "abc", some 1, some 72645361, some 1, some true⟩
    true false 0 7 1 3 true false
    (by decide) (by decide) (by decide)
  exact ⟨h.1, h.2.1⟩

/-- C7: when the first `m` candidate endpoints fail and endpoint `m+1`
succeeds, `connect` succeeds and the recorded `ConnectionInfo` carries
endpoint `m+1`'s URL and the region extracted from that URL's host label. -/
theorem connect_adopts_first_successful_endpoint (ok : String → Bool) :
    ∀ (urls : List String) (m : Nat) (hm : m < urls.length),
      (∀ i (hi : i < m), ok (urls.get ⟨i, hi.trans hm⟩) = false) →
      ok (urls.get ⟨m, hm⟩) = true →
      wsConnect ok urls = Except.ok
        { url := urls.get ⟨m, hm⟩
          region := extractRegionFromUrl (urls.get ⟨m, hm⟩)
          status := ConnectionStatus.connected } := by
  intro urls
  induction urls with
  | nil =>
    intro m hm
    exact absurd hm (Nat.not_lt_zero m)
  | cons u rest ih =>
    intro m hm hfail hsucc
    cases m with
    | zero =>
      have hu : ok u = true := hsucc
      unfold wsConnect
      rw [hu]
      simp
    | succ m' =>
      have h0 : ok u = false := hfail 0 (Nat.succ_pos m')
      unfold wsConnect
      rw [h0]
      simp only [Bool.false_eq_true, if_false]
      have hm' : m' < rest.length := Nat.lt_of_succ_lt_succ hm
      have := ih m' hm'
        (fun i hi => hfail (i + 1) (Nat.succ_lt_succ hi))
        hsucc
      simpa using this

/-- C7 witness: the first endpoint fails, the second succeeds, and the
adopted `ConnectionInfo` carries the second URL with region `EU`. -/
theorem connect_adopts_first_successful_endpoint_witness :
    wsConnect
        (fun u => u == "wss://api-eu.po.market/socket.io/?EIO=4&transport=websocket")
        ["wss://try-demo-eu.po.market/socket.io/?EIO=4&transport=websocket",
          "wss://api-eu.po.market/socket.io/?EIO=4&transport=websocket"]
      = Except.ok
          { url := "wss://api-eu.po.market/socket.io/?EIO=4&transport=websocket"
            region := extractRegionFromUrl
              "wss://api-eu.po.market/socket.io/?EIO=4&transport=websocket"
            status := ConnectionStatus.connected } ∧
    extractRegionFromUrl
        "wss://api-eu.po.market/socket.io/?EIO=4&transport=websocket"
      = "EU" :=
  have hm : (1 : Nat) <
      (["wss://try-demo-eu.po.market/socket.io/?EIO=4&transport=websocket",
         "wss://api-eu.po.market/socket.io/?EIO=4&transport=websocket"] :
        List String).length := by decide
  ⟨connect_adopts_first_successful_endpoint
      (fun u => u == "wss://api-eu.po.market/socket.io/?EIO=4&transport=websocket")
      ["wss://try-demo-eu.po.market/socket.io/?EIO=4&transport=websocket",
        "wss://api-eu.po.market/socket.io/?EIO=4&transport=websocket"]
      1 hm
      (fun i hi => by
        have h0 : i = 0 := Nat.lt_one_iff.mp hi
        subst h0
        rfl)
      rfl,
    by decide⟩

/-- C8 counterexample: with a single candidate that fails, `connect` raises
`ConnectionError` — it does not return the boolean `false`. -/
theorem connect_all_fail_counterexample :
    clientConnect (fun _ => false) (Except.ok ())
        ["wss://api-eu.po.market/socket.io/?EIO=4&transport=websocket"]
      = Except.error PyErr.connectionError ∧
    clientConnect (fun _ => false) (Except.ok ())
        ["wss://api-eu.po.market/socket.io/?EIO=4&transport=websocket"]
      ≠ Except.ok false := by
  exact ⟨rfl, fun h => Except.noConfusion h⟩

/-- C8 (amended): when every candidate endpoint fails,
`AsyncWebSocketClient.connect` raises `ConnectionError` (it never returns
`False`), and `AsyncPocketOptionClient.connect` re-raises it as
`ConnectionError` to the caller instead of returning `False`. -/
theorem connect_all_fail_raises (ok : String → Bool)
    (authOk : Except PyErr Unit) :
    ∀ (urls : List String), (∀ u ∈ urls, ok u = false) →
      wsConnect ok urls = Except.error PyErr.connectionError ∧
      clientConnect ok authOk urls = Except.error PyErr.connectionError := by
  intro urls hfail
  have hws : wsConnect ok urls = Except.error PyErr.connectionError := by
    induction urls with
    | nil => rfl
    | cons u rest ih =>
      have h0 : ok u = false := hfail u (List.mem_cons_self u rest)
      unfold wsConnect
      rw [h0]
      simp only [Bool.false_eq_true, if_false]
      exact ih (fun v hv => hfail v (List.mem_cons_of_mem u hv))
  refine ⟨hws, ?_⟩
  cases urls with
  | nil => rfl
  | cons u rest =>
    unfold clientConnect
    rw [hws]

/-- C8 witness for the amended theorem, with two failing candidates. -/
theorem connect_all_fail_raises_witness :
    wsConnect (fun _ => false)
        ["wss://api-eu.po.market/socket.io/?EIO=4&transport=websocket",
          "wss://demo-api-eu.po.market/socket.io/?EIO=4&transport=websocket"]
      = Except.error PyErr.connectionError ∧
    clientConnect (fun _ => false) (Except.ok ())
        ["wss://api-eu.po.market/socket.io/?EIO=4&transport=websocket",
          "wss://demo-api-eu.po.market/socket.io/?EIO=4&transport=websocket"]
      = Except.error PyErr.connectionError :=
  connect_all_fail_raises (fun _ => false) (Except.ok ())
    ["wss://api-eu.po.market/socket.io/?EIO=4&transport=websocket",
      "wss://demo-api-eu.po.market/socket.io/?EIO=4&transport=websocket"]
    (fun _ _ => rfl)

/-- C9 counterexample: one monitor iteration while disconnected with
auto-reconnect on, whose reconnection attempt fails, still increments
`total_reconnects` (0 becomes 1) and emits nothing — so the counter is not
incremented "exactly when a reconnection attempt succeeds". -/
theorem reconnect_counter_counterexample :
    (reconnectionMonitorIteration false true (some false)
        ⟨0, []⟩).totalReconnects = 1 ∧
    (reconnectionMonitorIteration false true (some false)
        ⟨0, []⟩).emittedEvents = [] := by
  exact ⟨rfl, rfl⟩

/-- C9 (amended): whenever the monitor finds the client disconnected with
auto-reconnect enabled, it increments `total_reconnects` before the attempt
— on every attempt, successful or not — while the `reconnected` event is
emitted exactly on success; when the client is connected the iteration
changes nothing. -/
theorem reconnect_counter_increment_on_attempt :
    ∀ (st : ReconState) (attempt : Option Bool),
      (reconnectionMonitorIteration false true attempt st).totalReconnects
          = st.totalReconnects + 1 ∧
      (reconnectionMonitorIteration false true attempt st).emittedEvents
          = (if attempt = some true then st.emittedEvents ++ ["reconnected"]
              else st.emittedEvents) ∧
      (∀ (auto : Bool) (att : Option Bool) (st' : ReconState),
        reconnectionMonitorIteration true auto att st' = st') := by
  intro st attempt
  refine ⟨?_, ?_, ?_⟩
  · unfold reconnectionMonitorIteration
    simp only [Bool.not_false, Bool.true_and, if_true]
    cases attempt with
    | none => rfl
    | some b => cases b <;> rfl
  · unfold reconnectionMonitorIteration
    simp only [Bool.not_false, Bool.true_and, if_true]
    cases attempt with
    | none => simp
    | some b =>
      cases b with
      | false => simp
      | true => simp
  · intro auto att st'
    unfold reconnectionMonitorIteration
    simp

/-- C10: in any batch of inbound frames, a heartbeat probe (`"2"`) at
position `i` is answered with the fixed reply frame (`"3"`) — and nothing
else — before any frame after it in the batch is decoded and published: the
batch's output trace is exactly the outputs of the earlier frames, then the
single `send "3"`, then the outputs of the later frames. -/
theorem heartbeat_reply_precedes_later_frames {π : Type}
    (parse451 : String → Option (String × Option π)) (msgs : List String)
    (i : Nat) (h : msgs.get? i = some "2") :
    processBatch parse451 msgs =
      processBatch parse451 (msgs.take i) ++ WsAction.send "3" ::
        processBatch parse451 (msgs.drop (i + 1)) := by
  obtain ⟨hi, hget⟩ := List.get?_eq_some.mp h
  have hsplit : msgs = msgs.take i ++ "2" :: msgs.drop (i + 1) := by
    conv_lhs => rw [← List.take_append_drop i msgs]
    congr 1
    rw [List.drop_eq_getElem_cons hi]
    congr 1
  have hprobe : processMessage parse451 "2" = [WsAction.send "3"] := rfl
  conv_lhs => rw [hsplit]
  unfold processBatch
  rw [List.flatMap_append, List.flatMap_cons, hprobe]
  rfl

/-- C10 witness: a concrete batch `[open-handshake, probe, event frame]`;
the probe's `"3"` reply sits between the first frame's output and the later
frame's publication. -/
theorem heartbeat_reply_precedes_later_frames_witness :
    processBatch
        (fun s =>
          if s = "[\x22successauth\x22,\x7b\x7d]"
          then some (("successauth", none) : String × Option String)
          else none)
        ["0\x7b\x22sid\x22:\x22a\x22\x7d", "2",
          "451-[\x22successauth\x22,\x7b\x7d]"]
      = processBatch
          (fun s =>
            if s = "[\x22successauth\x22,\x7b\x7d]"
            then some (("successauth", none) : String × Option String)
            else none)
          (["0\x7b\x22sid\x22:\x22a\x22\x7d", "2",
             "451-[\x22successauth\x22,\x7b\x7d]"].take 1) ++
        WsAction.send "3" ::
          processBatch
            (fun s =>
              if s = "[\x22successauth\x22,\x7b\x7d]"
              then some (("successauth", none) : String × Option String)
              else none)
            (["0\x7b\x22sid\x22:\x22a\x22\x7d", "2",
               "451-[\x22successauth\x22,\x7b\x7d]"].drop 2) ∧
    processBatch
        (fun s =>
          if s = "[\x22successauth\x22,\x7b\x7d]"
          then some (("successauth", none) : String × Option String)
          else none)
        ["0\x7b\x22sid\x22:\x22a\x22\x7d", "2",
          "451-[\x22successauth\x22,\x7b\x7d]"]
      = [WsAction.send "40", WsAction.send "3",
          WsAction.publish "authenticated" none] :=
  ⟨heartbeat_reply_precedes_later_frames
      (fun s =>
        if s = "[\x22successauth\x22,\x7b\x7d]"
        then some (("successauth", none) : String × Option String)
        else none)
      ["0\x7b\x22sid\x22:\x22a\x22\x7d", "2",
        "451-[\x22successauth\x22,\x7b\x7d]"]
      1 rfl,
    by decide⟩
